import Mathlib

/-!
Verification of the note ingestion and semantic retrieval pipeline of the
Notes RAG backend (FastAPI + Gemini embeddings + MongoDB Atlas vector search).

The development shallowly embeds the relevant source files:
  - backend/app/config.py            (configuration constants)
  - backend/app/services/gemini_service.py
  - backend/app/services/mongodb_service.py
  - backend/app/models/schemas.py    (pydantic request validation)
  - backend/app/routes/notes.py      (route handlers)

External capabilities are modelled explicitly:
  - the Gemini embedding provider is a function from text and task type to an
    optional vector (none models a provider failure); every call the pipeline
    makes is recorded in a call trace so that call texts and task types are
    observable;
  - the MongoDB collection is a list of documents; insert appends, find_one
    scans, and the Atlas vectorSearch aggregation stage is modelled by its
    documented semantics: the equality filter is applied inside the search
    (candidates are drawn only from matching documents), candidates are ranked
    by score descending, capped at numCandidates, and truncated to the limit;
  - bson ObjectId values are modelled as natural numbers with an injective
    string rendering and an exact parser (parsing a malformed string fails),
    matching the opaque ObjectId / str boundary of the source;
  - vectors are lists of rationals (the numeric payload is never computed on
    by the repository code, only carried and length-checked);
  - timestamps (datetime.utcnow) are supplied as a parameter.
-/

namespace NotesRag

/-! ## Configuration (config.py, Settings defaults) -/

def gemini_embedding_dimensions : Nat := 768

def vector_search_num_candidates : Nat := 100

/-! ## Embedding provider model and call traces -/

/-- The task type tag passed to genai.embed_content. -/
inductive EmbedMode where
  | retrieval_document
  | retrieval_query
deriving DecidableEq, Repr

/-- One call made to the embedding provider: the submitted text and task type. -/
structure EmbedCall where
  text : String
  mode : EmbedMode
deriving DecidableEq, Repr

/-- The external Gemini provider: maps text and task type to a vector, or fails
(none models a network, auth or quota failure). -/
abbrev EmbedFn : Type := String → EmbedMode → Option (List Rat)

/-- Result of an embedding-service function together with the trace of provider
calls it performed. -/
structure EmbedOutcome where
  result : Except String (List Rat)
  calls : List EmbedCall
deriving Repr

/-! ## gemini_service.py -/

/-- generate_embedding: calls the provider with task type retrieval_document,
checks the returned length against the configured dimensionality, and wraps
every failure (provider error or dimension mismatch) in a single error, as the
try/except in the source re-raises both as one exception kind. -/
def generate_embedding (provider : EmbedFn) (text : String) : EmbedOutcome :=
  let call : EmbedCall := ⟨text, EmbedMode.retrieval_document⟩
  match provider text EmbedMode.retrieval_document with
  | none => ⟨Except.error "Failed to generate embedding: provider error", [call]⟩
  | some embedding =>
      if embedding.length ≠ gemini_embedding_dimensions then
        ⟨Except.error "Failed to generate embedding: dimension mismatch", [call]⟩
      else
        ⟨Except.ok embedding, [call]⟩

/-- The composite text built by generate_note_embedding: title and content
joined by a blank line, and, when the tags list is truthy (non-empty), the
rendered Tags line appended after a further blank line. -/
def combinedNoteText (title content : String) (tags : List String) : String :=
  let combined_text := title ++ "\n\n" ++ content
  if tags.isEmpty then
    combined_text
  else
    combined_text ++ "\n\nTags: " ++ String.intercalate ", " tags

/-- generate_note_embedding: embeds the composite note text in document mode. -/
def generate_note_embedding (provider : EmbedFn) (title content : String)
    (tags : List String) : EmbedOutcome :=
  generate_embedding provider (combinedNoteText title content tags)

/-- generate_query_embedding: calls the provider with task type retrieval_query
and performs the same dimensionality check as ingestion. -/
def generate_query_embedding (provider : EmbedFn) (query : String) : EmbedOutcome :=
  let call : EmbedCall := ⟨query, EmbedMode.retrieval_query⟩
  match provider query EmbedMode.retrieval_query with
  | none => ⟨Except.error "Failed to generate query embedding: provider error", [call]⟩
  | some embedding =>
      if embedding.length ≠ gemini_embedding_dimensions then
        ⟨Except.error "Failed to generate query embedding: dimension mismatch", [call]⟩
      else
        ⟨Except.ok embedding, [call]⟩

/-! ## Store model: documents, ObjectId boundary -/

/-- A persisted note document, as inserted by MongoDBService.create_note. -/
structure NoteDoc where
  oid : Nat
  title : String
  content : String
  user_id : String
  tags : List String
  embedding : List Rat
  created_at : Nat
  updated_at : Nat
deriving DecidableEq, Repr

/-- The note collection. -/
abbrev Collection : Type := List NoteDoc

/-- Rendering of a store-assigned ObjectId as a plain string at the repository
boundary (str of a bson ObjectId). The encoding itself is opaque to the
repository code; it is modelled as an injective rendering with an exact
parser. -/
def renderObjectId (n : Nat) : String :=
  String.mk (List.replicate n 'i')

/-- Parsing a string back into an ObjectId (the bson ObjectId constructor):
succeeds exactly on well-formed renderings, fails (raises, in the source) on
any malformed string. -/
def parseObjectId (s : String) : Option Nat :=
  if s.data.all (fun c => c == 'i') then some s.data.length else none

/-- The id the store assigns to the next inserted document. -/
def freshObjectId (coll : Collection) : Nat :=
  List.length coll

/-! ## mongodb_service.py -/

/-- MongoDBService.create_note: builds the document with both timestamps set to
the single current time, inserts it, and returns the new id as a string. -/
def MongoDBService.create_note (title content user_id : String) (tags : List String)
    (embedding : List Rat) (now : Nat) (coll : Collection) : String × Collection :=
  let oid := freshObjectId coll
  let note_doc : NoteDoc :=
    { oid := oid, title := title, content := content, user_id := user_id,
      tags := tags, embedding := embedding, created_at := now, updated_at := now }
  (renderObjectId oid, coll ++ [note_doc])

/-- MongoDBService.get_note: parses the id string, runs find_one, and returns
none both when the id is malformed (the ObjectId constructor raises and the
except block returns None) and when the store read itself fails (storeFail
models a failure of the find_one call; the same except block returns None). -/
def MongoDBService.get_note (storeFail : Option String) (note_id : String)
    (coll : Collection) : Option NoteDoc :=
  match parseObjectId note_id with
  | none => none
  | some oid =>
      match storeFail with
      | some _ => none
      | none => List.find? (fun d => d.oid == oid) coll

/-- Comparator for ranking by similarity score descending. -/
def scoreDescBool (a b : NoteDoc × Rat) : Bool :=
  decide (b.2 ≤ a.2)

/-- The Atlas vectorSearch aggregation stage as configured by the source
pipeline, modelled from its documented semantics: the user_id equality filter
is applied inside the search stage, so candidates are drawn only from the
requesting user's documents; those are scored against the query vector, ranked
by score descending, capped at numCandidates, and truncated to the limit. -/
def vectorSearchStage (sim : List Rat → List Rat → Rat) (query_embedding : List Rat)
    (user_id : String) (numCandidates limit : Nat) (coll : Collection) :
    List (NoteDoc × Rat) :=
  let filtered := List.filter (fun d => d.user_id == user_id) coll
  let scored := filtered.map (fun d => (d, sim query_embedding d.embedding))
  let ranked := scored.mergeSort scoreDescBool
  (ranked.take numCandidates).take limit

/-- A document produced by the project stage of the search pipeline: the listed
fields plus the vectorSearchScore; the embedding is not projected. -/
structure SearchDoc where
  id : String
  title : String
  content : String
  user_id : String
  tags : List String
  created_at : Nat
  updated_at : Nat
  score : Rat
deriving DecidableEq, Repr

/-- The project stage of the search pipeline, with the ObjectId rendered as a
string as the route loop does. -/
def projectStage (p : NoteDoc × Rat) : SearchDoc :=
  { id := renderObjectId p.1.oid, title := p.1.title, content := p.1.content,
    user_id := p.1.user_id, tags := p.1.tags, created_at := p.1.created_at,
    updated_at := p.1.updated_at, score := p.2 }

/-- MongoDBService.vector_search: runs the two-stage pipeline (vectorSearch
with the user filter inside the search stage, then project), then materialises
the cursor with to_list capped at the limit. -/
def MongoDBService.vector_search (sim : List Rat → List Rat → Rat)
    (query_embedding : List Rat) (user_id : String) (limit : Nat)
    (coll : Collection) : List SearchDoc :=
  let stage := vectorSearchStage sim query_embedding user_id
    vector_search_num_candidates limit coll
  (stage.map projectStage).take limit

/-- A record returned by list_notes: the projection excludes the embedding
field, so the record type carries no embedding at all. -/
structure ListedNote where
  id : String
  title : String
  content : String
  user_id : String
  tags : List String
  created_at : Nat
  updated_at : Nat
deriving DecidableEq, Repr

/-- The embedding-excluding projection applied by list_notes. -/
def NoteDoc.toListed (d : NoteDoc) : ListedNote :=
  { id := renderObjectId d.oid, title := d.title, content := d.content,
    user_id := d.user_id, tags := d.tags, created_at := d.created_at,
    updated_at := d.updated_at }

/-- Comparator for sorting by updated_at descending. -/
def updatedDescBool (a b : NoteDoc) : Bool :=
  decide (b.updated_at ≤ a.updated_at)

/-- MongoDBService.list_notes: find with the user_id filter and the projection
excluding the embedding, sorted by updated_at descending, limited, and
materialised with to_list capped at the same limit. -/
def MongoDBService.list_notes (user_id : String) (limit : Nat)
    (coll : Collection) : List ListedNote :=
  let filtered := List.filter (fun d => d.user_id == user_id) coll
  let sorted := filtered.mergeSort updatedDescBool
  (((sorted.take limit).take limit).map NoteDoc.toListed)

/-! ## schemas.py: pydantic request validation -/

/-- Python str.strip(): leading and trailing whitespace removed. -/
def isPySpace (c : Char) : Bool :=
  c == ' ' || c == '\t' || c == '\n' || c == '\r' || c == '\x0b' || c == '\x0c'

/-- Model of the Python strip() used by the field validators: drop whitespace
from both ends of the character sequence. -/
def pyStrip (s : String) : String :=
  String.mk (((s.data.dropWhile isPySpace).reverse.dropWhile isPySpace).reverse)

/-- A validated NoteCreate request body. -/
structure NoteCreate where
  title : String
  content : String
  user_id : String
  tags : List String
deriving DecidableEq, Repr

/-- Pydantic validation of NoteCreate: the Field constraints (min_length,
max_length) run before the per-field validators; validate_title and
validate_content reject values whose strip() is empty (which subsumes the
not-v check, since an empty string also strips to empty) and return the
stripped value. A raised ValueError surfaces as a validation error. -/
def NoteCreate.validate (title content user_id : String) (tags : List String) :
    Except String NoteCreate :=
  if title.length < 1 then
    Except.error "title: String should have at least 1 character"
  else if 500 < title.length then
    Except.error "title: String should have at most 500 characters"
  else if pyStrip title = "" then
    Except.error "Title cannot be empty"
  else if content.length < 1 then
    Except.error "content: String should have at least 1 character"
  else if pyStrip content = "" then
    Except.error "Content cannot be empty"
  else if user_id.length < 1 then
    Except.error "user_id: String should have at least 1 character"
  else
    Except.ok { title := pyStrip title, content := pyStrip content,
                user_id := user_id, tags := tags }

/-- A validated SearchQuery request body. -/
structure SearchQuery where
  query : String
  user_id : String
  limit : Int
deriving DecidableEq, Repr

/-- Pydantic validation of SearchQuery: query has min_length 1 and a
strip-empty validator returning the stripped value; user_id has min_length 1;
limit carries the constraints ge 1 and le 50 — an out-of-range limit is
rejected with a validation error, not clamped. -/
def SearchQuery.validate (query user_id : String) (limit : Int) :
    Except String SearchQuery :=
  if query.length < 1 then
    Except.error "query: String should have at least 1 character"
  else if pyStrip query = "" then
    Except.error "Query cannot be empty"
  else if user_id.length < 1 then
    Except.error "user_id: String should have at least 1 character"
  else if limit < 1 then
    Except.error "limit: Input should be greater than or equal to 1"
  else if 50 < limit then
    Except.error "limit: Input should be less than or equal to 50"
  else
    Except.ok { query := pyStrip query, user_id := user_id, limit := limit }

/-- Response model for a note (NoteResponse), with the id rendered as a
string. -/
structure NoteResponse where
  id : String
  title : String
  content : String
  user_id : String
  tags : List String
  created_at : Nat
  updated_at : Nat
deriving DecidableEq, Repr

/-- Building a NoteResponse from a stored document. -/
def NoteDoc.toResponse (d : NoteDoc) : NoteResponse :=
  { id := renderObjectId d.oid, title := d.title, content := d.content,
    user_id := d.user_id, tags := d.tags, created_at := d.created_at,
    updated_at := d.updated_at }

/-- Response model for one search result. -/
structure SearchResult where
  note : NoteResponse
  score : Rat
deriving DecidableEq, Repr

/-- Response model for a search: results, query echo and count. The
search_time_ms wall-clock field is not modelled. -/
structure SearchResponse where
  results : List SearchResult
  query : String
  count : Nat
deriving DecidableEq, Repr

/-! ## routes/notes.py -/

/-- Errors surfaced at the transport boundary: 422 validation errors and 500
internal errors. -/
inductive RouteError where
  | validation (detail : String)
  | internal (detail : String)
deriving DecidableEq, Repr

/-- Whether an outcome failed with a validation (422) error. -/
def isValidationFailure {α : Type} : Except RouteError α → Bool
  | Except.error (RouteError.validation _) => true
  | _ => false

/-- Outcome of the create-note endpoint: the response, the state of the note
collection afterwards, and the trace of embedding-provider calls made. -/
structure CreateOutcome where
  response : Except RouteError NoteResponse
  coll : Collection
  calls : List EmbedCall
deriving Repr

/-- The create_note route handler body (after request validation): generates
the embedding, stores the note, reads the stored note back and returns it.
Every embedding failure is caught and surfaced as a 500 without touching the
store; a failed read-back (readFail models a store failure of the find_one
call) is a 500 as well. -/
def create_note_route (provider : EmbedFn) (readFail : Option String)
    (note : NoteCreate) (now : Nat) (coll : Collection) : CreateOutcome :=
  match generate_note_embedding provider note.title note.content note.tags with
  | ⟨Except.error e, calls⟩ =>
      { response := Except.error (RouteError.internal ("Failed to create note: " ++ e)),
        coll := coll, calls := calls }
  | ⟨Except.ok embedding, calls⟩ =>
      match MongoDBService.create_note note.title note.content note.user_id
          note.tags embedding now coll with
      | (note_id, coll2) =>
          match MongoDBService.get_note readFail note_id coll2 with
          | none =>
              { response := Except.error
                  (RouteError.internal "Failed to create note: Failed to retrieve created note"),
                coll := coll2, calls := calls }
          | some created =>
              { response := Except.ok created.toResponse,
                coll := coll2, calls := calls }

/-- The full ingest path as the transport layer sees it: pydantic validation of
the request body happens before the handler runs; a validation failure returns
422 before any embedding call or store write. -/
def ingest (provider : EmbedFn) (readFail : Option String)
    (title content user_id : String) (tags : List String) (now : Nat)
    (coll : Collection) : CreateOutcome :=
  match NoteCreate.validate title content user_id tags with
  | Except.error e =>
      { response := Except.error (RouteError.validation e), coll := coll, calls := [] }
  | Except.ok note => create_note_route provider readFail note now coll

/-- Wrapping one search pipeline document into the response shape, with the
score taken from the projected vectorSearchScore. -/
def SearchDoc.toResult (r : SearchDoc) : SearchResult :=
  { note := { id := r.id, title := r.title, content := r.content,
              user_id := r.user_id, tags := r.tags, created_at := r.created_at,
              updated_at := r.updated_at },
    score := r.score }

/-- Outcome of the search endpoint: the response and the trace of
embedding-provider calls made. The search path never writes to the store. -/
structure SearchOutcome where
  response : Except RouteError SearchResponse
  calls : List EmbedCall
deriving Repr

/-- The search_notes route handler body (after request validation): generates
the query embedding in query mode, runs the vector search, and wraps each
returned document, in order, into a result with its score; count is the number
of results. -/
def search_notes_route (provider : EmbedFn) (sim : List Rat → List Rat → Rat)
    (q : SearchQuery) (coll : Collection) : SearchOutcome :=
  match generate_query_embedding provider q.query with
  | ⟨Except.error e, calls⟩ =>
      { response := Except.error (RouteError.internal ("Search failed: " ++ e)),
        calls := calls }
  | ⟨Except.ok query_embedding, calls⟩ =>
      let search_results := (MongoDBService.vector_search sim query_embedding
        q.user_id q.limit.toNat coll).map SearchDoc.toResult
      { response := Except.ok
          { results := search_results, query := q.query,
            count := search_results.length },
        calls := calls }

/-! ## Spec-side definitions (for refinement claims)

These definitions follow the words of the specification, not the source; they
are compared against the source-embedded definitions. -/

/-- Spec-side rendering of the tags joined by a comma and a space, in their
given order, written by direct recursion on the list. -/
def specTagsJoined : List String → String
  | [] => ""
  | [t] => t
  | t :: ts => t ++ ", " ++ specTagsJoined ts

/-- The embedding source text as the specification states it: the title, then
a blank line, then the content, and — only when tags is non-empty — a further
blank line followed by the line listing the tags. -/
def specNoteText (title content : String) (tags : List String) : String :=
  match tags with
  | [] => title ++ "\n\n" ++ content
  | _ :: _ => title ++ "\n\n" ++ content ++ "\n\n" ++ "Tags: " ++ specTagsJoined tags

/-! ## Concrete fixtures used to evaluate the pipeline on closed inputs -/

/-- A well-dimensioned vector. -/
def wEmbedding : List Rat := List.replicate 768 1

/-- A provider that always returns the well-dimensioned vector. -/
def wProvider : EmbedFn := fun _ _ => some wEmbedding

/-- A provider that returns a vector of the wrong dimensionality. -/
def wProviderShort : EmbedFn := fun _ _ => some [1]

/-- A provider that always fails. -/
def wProviderFail : EmbedFn := fun _ _ => none

/-- A similarity measure assigning score 1 to every pair. -/
def wSim : List Rat → List Rat → Rat := fun _ _ => 1

/-- A stored note of user u1. -/
def wDoc1 : NoteDoc :=
  { oid := 0, title := "Trip to Kyoto", content := "Visited temples.",
    user_id := "u1", tags := ["travel"], embedding := wEmbedding,
    created_at := 5, updated_at := 5 }

/-- A stored note of user u2. -/
def wDoc2 : NoteDoc :=
  { oid := 1, title := "Groceries", content := "Buy milk.",
    user_id := "u2", tags := [], embedding := wEmbedding,
    created_at := 7, updated_at := 7 }

/-- A two-user collection. -/
def wColl : Collection := [wDoc1, wDoc2]

/-- A validated note-creation request body. -/
def wNote : NoteCreate :=
  { title := "Trip to Kyoto", content := "Visited temples.", user_id := "u1",
    tags := ["travel"] }

/-- A validated search request body. -/
def wQuery : SearchQuery :=
  { query := "temples", user_id := "u1", limit := 5 }

/-! ## Helper lemmas -/

theorem wEmbedding_length : wEmbedding.length = gemini_embedding_dimensions := by
  unfold wEmbedding gemini_embedding_dimensions
  exact List.length_replicate 768 1

theorem intercalate_go_spec (ts : List String) :
    ∀ acc : String, String.intercalate.go acc ", " ts =
      acc ++ (ts.map (fun t => ", " ++ t)).foldr (· ++ ·) "" := by
  induction ts with
  | nil => intro acc; simp [String.intercalate.go]
  | cons t ts ih =>
      intro acc
      simp only [String.intercalate.go, ih, List.map_cons, List.foldr_cons]
      rw [← String.append_assoc, ← String.append_assoc]

theorem specTagsJoined_cons (t : String) (ts : List String) :
    specTagsJoined (t :: ts) =
      t ++ (ts.map (fun s => ", " ++ s)).foldr (· ++ ·) "" := by
  induction ts generalizing t with
  | nil => simp [specTagsJoined]
  | cons u us ih =>
      simp only [specTagsJoined, ih, List.map_cons, List.foldr_cons]
      simp [String.append_assoc]

theorem intercalate_eq_specTagsJoined (ts : List String) :
    String.intercalate ", " ts = specTagsJoined ts := by
  cases ts with
  | nil => rfl
  | cons t ts =>
      rw [specTagsJoined_cons]
      simp only [String.intercalate]
      exact intercalate_go_spec ts t

theorem combinedNoteText_eq_spec (title content : String) (tags : List String) :
    combinedNoteText title content tags = specNoteText title content tags := by
  cases tags with
  | nil => rfl
  | cons t ts =>
      simp only [combinedNoteText, specNoteText, List.isEmpty_cons, if_neg,
        Bool.false_eq_true, not_false_iff, if_false, intercalate_eq_specTagsJoined]
      have h2 : ("\n\nTags: " : String) = "\n\n" ++ "Tags: " := by decide
      rw [h2]
      simp only [← String.append_assoc]

theorem generate_embedding_calls (provider : EmbedFn) (text : String) :
    (generate_embedding provider text).calls =
      [⟨text, EmbedMode.retrieval_document⟩] := by
  unfold generate_embedding
  cases provider text EmbedMode.retrieval_document with
  | none => rfl
  | some embedding =>
      by_cases h : embedding.length ≠ gemini_embedding_dimensions <;> simp [h]

theorem generate_query_embedding_calls (provider : EmbedFn) (query : String) :
    (generate_query_embedding provider query).calls =
      [⟨query, EmbedMode.retrieval_query⟩] := by
  unfold generate_query_embedding
  cases provider query EmbedMode.retrieval_query with
  | none => rfl
  | some embedding =>
      by_cases h : embedding.length ≠ gemini_embedding_dimensions <;> simp [h]

theorem create_note_route_calls (provider : EmbedFn) (readFail : Option String)
    (note : NoteCreate) (now : Nat) (coll : Collection) :
    (create_note_route provider readFail note now coll).calls =
      (generate_note_embedding provider note.title note.content note.tags).calls := by
  unfold create_note_route
  split <;> (try split) <;> (try split) <;> simp_all

theorem search_notes_route_calls (provider : EmbedFn)
    (sim : List Rat → List Rat → Rat) (q : SearchQuery) (coll : Collection) :
    (search_notes_route provider sim q coll).calls =
      (generate_query_embedding provider q.query).calls := by
  unfold search_notes_route
  split <;> simp_all

/-! ## Claims -/

/-- C3: for every title, content and tags, the text submitted to the embedding
provider during ingestion equals the title, a blank line, the content, and —
only when tags is non-empty — a further blank line followed by the Tags line
with the tags joined by a comma and a space in their given order; when tags is
empty no Tags line is appended. -/
theorem ingestion_text_matches_spec (provider : EmbedFn)
    (title content : String) (tags : List String) :
    (generate_note_embedding provider title content tags).calls =
      [⟨specNoteText title content tags, EmbedMode.retrieval_document⟩] := by
  unfold generate_note_embedding
  rw [generate_embedding_calls, combinedNoteText_eq_spec]

/-- C8: ingestion always calls the embedding provider in document mode and
retrieval always calls it in query mode; no call on either path carries the
other mode tag. -/
theorem embed_modes_never_conflated (provider : EmbedFn) (readFail : Option String)
    (title content user_id : String) (tags : List String) (now : Nat)
    (coll : Collection) (sim : List Rat → List Rat → Rat) (q : SearchQuery)
    (coll2 : Collection) :
    ((ingest provider readFail title content user_id tags now coll).calls.all
        (fun c => c.mode == EmbedMode.retrieval_document)) = true
    ∧ ((search_notes_route provider sim q coll2).calls.all
        (fun c => c.mode == EmbedMode.retrieval_query)) = true := by
  constructor
  · unfold ingest
    split
    · rfl
    · rw [create_note_route_calls]
      unfold generate_note_embedding
      rw [generate_embedding_calls]
      rfl
  · rw [search_notes_route_calls, generate_query_embedding_calls]
    rfl

theorem generate_embedding_ok_length {provider : EmbedFn} {text : String}
    {emb : List Rat}
    (h : (generate_embedding provider text).result = Except.ok emb) :
    emb.length = gemini_embedding_dimensions := by
  simp only [generate_embedding] at h
  cases hp : provider text EmbedMode.retrieval_document <;> simp only [hp] at h
  · simp at h
  · split at h <;> simp_all

theorem generate_note_embedding_ok_length {provider : EmbedFn}
    {title content : String} {tags : List String} {emb : List Rat}
    (h : (generate_note_embedding provider title content tags).result = Except.ok emb) :
    emb.length = gemini_embedding_dimensions :=
  generate_embedding_ok_length h

theorem generate_embedding_mismatch {provider : EmbedFn} {text : String}
    {v : List Rat}
    (hp : provider text EmbedMode.retrieval_document = some v)
    (hv : v.length ≠ gemini_embedding_dimensions) :
    (generate_embedding provider text).result =
      Except.error "Failed to generate embedding: dimension mismatch" := by
  simp [generate_embedding, hp, hv]

/-- Case analysis of the create-note handler: either the embedding step failed
and the collection is untouched, or it produced a vector and the handler
appended exactly one document carrying that vector and the single timestamp. -/
theorem create_note_route_coll_cases (provider : EmbedFn) (readFail : Option String)
    (note : NoteCreate) (now : Nat) (coll : Collection) :
    ((generate_note_embedding provider note.title note.content note.tags).result.isOk
        = false
      ∧ (create_note_route provider readFail note now coll).coll = coll)
    ∨ (∃ emb,
        (generate_note_embedding provider note.title note.content note.tags).result
          = Except.ok emb
        ∧ (create_note_route provider readFail note now coll).coll =
            coll ++ [{ oid := freshObjectId coll, title := note.title,
                       content := note.content, user_id := note.user_id,
                       tags := note.tags, embedding := emb,
                       created_at := now, updated_at := now }]) := by
  cases heq : generate_note_embedding provider note.title note.content note.tags with
  | mk res calls =>
      cases res with
      | error e =>
          exact Or.inl ⟨rfl, by unfold create_note_route; rw [heq]⟩
      | ok emb =>
          right
          refine ⟨emb, rfl, ?_⟩
          unfold create_note_route
          rw [heq]
          split
          · rename_i x e2 calls2 hcontra
            simp at hcontra
          · rename_i x emb2 calls2 hinj
            have he2 : emb = emb2 := by
              simpa using congrArg EmbedOutcome.result hinj
            subst he2
            split
            rename_i y note_id coll2 hpair
            have hsnd : (MongoDBService.create_note note.title note.content
                note.user_id note.tags emb now coll).2 = coll2 :=
              congrArg Prod.snd hpair
            rw [← hsnd]
            split <;> simp [MongoDBService.create_note]

theorem scoreDescBool_trans (a b c : NoteDoc × Rat)
    (hab : scoreDescBool a b = true) (hbc : scoreDescBool b c = true) :
    scoreDescBool a c = true := by
  simp only [scoreDescBool, decide_eq_true_eq] at hab hbc ⊢
  exact le_trans hbc hab

theorem scoreDescBool_total (a b : NoteDoc × Rat) :
    (scoreDescBool a b || scoreDescBool b a) = true := by
  simp only [scoreDescBool, Bool.or_eq_true, decide_eq_true_eq]
  exact le_total b.2 a.2

theorem vector_search_mem_user {sim : List Rat → List Rat → Rat}
    {query_embedding : List Rat} {user_id : String} {limit : Nat}
    {coll : Collection} {r : SearchDoc}
    (hr : r ∈ MongoDBService.vector_search sim query_embedding user_id limit coll) :
    r.user_id = user_id := by
  simp only [MongoDBService.vector_search] at hr
  have hr1 := List.mem_of_mem_take hr
  rw [List.mem_map] at hr1
  obtain ⟨p, hp, hpr⟩ := hr1
  simp only [vectorSearchStage] at hp
  have hp1 := List.mem_of_mem_take (List.mem_of_mem_take hp)
  rw [List.mem_mergeSort, List.mem_map] at hp1
  obtain ⟨d, hd, hdp⟩ := hp1
  rw [List.mem_filter] at hd
  have hu : d.user_id = user_id := by simpa using hd.2
  rw [← hpr, ← hdp]
  simpa [projectStage] using hu

theorem vector_search_length_le (sim : List Rat → List Rat → Rat)
    (query_embedding : List Rat) (user_id : String) (limit : Nat)
    (coll : Collection) :
    (MongoDBService.vector_search sim query_embedding user_id limit coll).length
      ≤ limit := by
  simp only [MongoDBService.vector_search]
  simp only [List.length_take]
  omega

theorem vector_search_length_full (sim : List Rat → List Rat → Rat)
    (query_embedding : List Rat) (user_id : String) (limit : Nat)
    (coll : Collection)
    (h1 : limit ≤ vector_search_num_candidates)
    (h2 : limit ≤ (List.filter (fun d => d.user_id == user_id) coll).length) :
    (MongoDBService.vector_search sim query_embedding user_id limit coll).length
      = limit := by
  simp only [MongoDBService.vector_search, vectorSearchStage]
  simp only [List.length_take, List.length_map, List.length_mergeSort]
  omega

theorem vector_search_sorted (sim : List Rat → List Rat → Rat)
    (query_embedding : List Rat) (user_id : String) (limit : Nat)
    (coll : Collection) :
    List.Pairwise (fun a b => b.score ≤ a.score)
      (MongoDBService.vector_search sim query_embedding user_id limit coll) := by
  simp only [MongoDBService.vector_search, vectorSearchStage]
  apply List.Pairwise.sublist (List.take_sublist _ _)
  rw [List.pairwise_map]
  apply List.Pairwise.sublist (List.take_sublist _ _)
  apply List.Pairwise.sublist (List.take_sublist _ _)
  have hs := List.sorted_mergeSort scoreDescBool_trans scoreDescBool_total
    ((List.filter (fun d => d.user_id == user_id) coll).map
      (fun d => (d, sim query_embedding d.embedding)))
  exact hs.imp (fun hab => by simpa [scoreDescBool, projectStage] using hab)

/-- C1: for every query vector, userId and limit, vector_search applies the
userId equality filter inside the similarity-search stage itself, so no
returned document belongs to a different user — regardless of how similar
other users' documents are and regardless of the limit — and, because the
filter precedes the limit, the result is not starved: whenever the user has at
least limit matching documents (and limit is within the candidate pool), the
full limit is returned. -/
theorem vector_search_scopes_user_inside_search (sim : List Rat → List Rat → Rat)
    (query_embedding : List Rat) (user_id : String) (limit : Nat)
    (coll : Collection) :
    (∀ r ∈ MongoDBService.vector_search sim query_embedding user_id limit coll,
        r.user_id = user_id)
    ∧ (limit ≤ vector_search_num_candidates →
        limit ≤ (List.filter (fun d => d.user_id == user_id) coll).length →
        (MongoDBService.vector_search sim query_embedding user_id limit coll).length
          = limit) :=
  ⟨fun _ hr => vector_search_mem_user hr,
   fun h1 h2 => vector_search_length_full sim query_embedding user_id limit coll h1 h2⟩

/-- Evaluation of the search pipeline on the concrete two-user collection. -/
theorem vector_search_wColl_eval :
    MongoDBService.vector_search wSim wEmbedding "u1" 1 wColl =
      [projectStage (wDoc1, wSim wEmbedding wDoc1.embedding)] := by
  simp [MongoDBService.vector_search, vectorSearchStage, wColl, wDoc1, wDoc2,
    List.filter, vector_search_num_candidates, List.take_of_length_le,
    show (("u1" : String) == "u1") = true from rfl,
    show (("u2" : String) == "u1") = false from rfl]

theorem vector_search_scopes_user_inside_search_witness :
    (projectStage (wDoc1, wSim wEmbedding wDoc1.embedding)).user_id = "u1"
    ∧ (MongoDBService.vector_search wSim wEmbedding "u1" 1 wColl).length = 1 :=
  ⟨(vector_search_scopes_user_inside_search wSim wEmbedding "u1" 1 wColl).1 _
      (by rw [vector_search_wColl_eval]; exact List.mem_singleton.mpr rfl),
   (vector_search_scopes_user_inside_search wSim wEmbedding "u1" 1 wColl).2
      (by decide)
      (by simp [wColl, wDoc1, wDoc2, List.filter,
            show (("u1" : String) == "u1") = true from rfl,
            show (("u2" : String) == "u1") = false from rfl])⟩

/-- C2: every document the create-note handler ever adds to the store carries
an embedding of the configured dimensionality: embedding generation
happens-before the write, a provider vector of any other length makes the
request fail with no write performed, and any embedding failure leaves the
collection exactly as it was. -/
theorem persisted_notes_have_valid_embeddings (provider : EmbedFn)
    (readFail : Option String) (note : NoteCreate) (now : Nat)
    (coll : Collection) :
    (∀ d ∈ (create_note_route provider readFail note now coll).coll,
        d ∈ coll ∨ d.embedding.length = gemini_embedding_dimensions)
    ∧ ((generate_note_embedding provider note.title note.content note.tags).result.isOk
          = false →
        (create_note_route provider readFail note now coll).coll = coll)
    ∧ (∀ v : List Rat,
        provider (combinedNoteText note.title note.content note.tags)
            EmbedMode.retrieval_document = some v →
        v.length ≠ gemini_embedding_dimensions →
        (create_note_route provider readFail note now coll).coll = coll
        ∧ (create_note_route provider readFail note now coll).response.isOk = false) := by
  have hcases := create_note_route_coll_cases provider readFail note now coll
  refine ⟨?_, ?_, ?_⟩
  · intro d hd
    rcases hcases with ⟨_, hc⟩ | ⟨emb, hok, hc⟩
    · rw [hc] at hd; exact Or.inl hd
    · rw [hc] at hd
      rcases List.mem_append.mp hd with hd1 | hd2
      · exact Or.inl hd1
      · right
        have hd3 : d.embedding = emb := by
          cases List.mem_singleton.mp hd2; rfl
        rw [hd3]
        exact generate_note_embedding_ok_length hok
  · intro hfail
    rcases hcases with ⟨_, hc⟩ | ⟨emb, hok, _⟩
    · exact hc
    · rw [hok] at hfail; simp [Except.isOk, Except.toBool] at hfail
  · intro v hv hlen
    have herr : (generate_note_embedding provider note.title note.content note.tags).result
        = Except.error "Failed to generate embedding: dimension mismatch" :=
      generate_embedding_mismatch hv hlen
    have hfail : (generate_note_embedding provider note.title note.content note.tags).result.isOk
        = false := by rw [herr]; rfl
    have hc : (create_note_route provider readFail note now coll).coll = coll := by
      rcases hcases with ⟨_, hc⟩ | ⟨emb, hok, _⟩
      · exact hc
      · rw [hok] at herr; cases herr
    refine ⟨hc, ?_⟩
    unfold create_note_route
    cases heq : generate_note_embedding provider note.title note.content note.tags with
    | mk res calls =>
        rw [heq] at herr
        simp only at herr
        subst herr
        rfl

theorem persisted_notes_have_valid_embeddings_witness :
    ([(1 : Rat)].length ≠ gemini_embedding_dimensions)
    ∧ ((create_note_route wProviderShort none wNote 3 []).coll = []
        ∧ (create_note_route wProviderShort none wNote 3 []).response.isOk = false) :=
  ⟨by decide,
   (persisted_notes_have_valid_embeddings wProviderShort none wNote 3 []).2.2
      [(1 : Rat)] rfl (by decide)⟩

theorem validate_blank_error (title content user_id : String) (tags : List String)
    (h : pyStrip title = "" ∨ pyStrip content = "") :
    ∃ e, NoteCreate.validate title content user_id tags = Except.error e := by
  unfold NoteCreate.validate
  by_cases h1 : title.length < 1
  · exact ⟨_, by rw [if_pos h1]⟩
  · rw [if_neg h1]
    by_cases h2 : 500 < title.length
    · exact ⟨_, by rw [if_pos h2]⟩
    · rw [if_neg h2]
      by_cases h3 : pyStrip title = ""
      · exact ⟨_, by rw [if_pos h3]⟩
      · rw [if_neg h3]
        have hc : pyStrip content = "" := by
          rcases h with h | h
          · exact absurd h h3
          · exact h
        by_cases h4 : content.length < 1
        · exact ⟨_, by rw [if_pos h4]⟩
        · rw [if_neg h4, if_pos hc]
          exact ⟨_, rfl⟩

/-- C4: a request whose title or content is empty or whitespace-only fails
with a validation error before the handler runs: no store write happens (the
collection is returned unchanged) and no embedding-provider call is made (the
call trace is empty). -/
theorem ingest_rejects_blank_without_side_effects (provider : EmbedFn)
    (readFail : Option String) (title content user_id : String)
    (tags : List String) (now : Nat) (coll : Collection)
    (h : pyStrip title = "" ∨ pyStrip content = "") :
    isValidationFailure
        (ingest provider readFail title content user_id tags now coll).response = true
    ∧ (ingest provider readFail title content user_id tags now coll).coll = coll
    ∧ (ingest provider readFail title content user_id tags now coll).calls = [] := by
  obtain ⟨e, he⟩ := validate_blank_error title content user_id tags h
  unfold ingest
  rw [he]
  exact ⟨rfl, rfl, rfl⟩

theorem ingest_rejects_blank_without_side_effects_witness :
    (pyStrip "   " = "" ∨ pyStrip "Visited temples." = "")
    ∧ (isValidationFailure
          (ingest wProvider none "   " "Visited temples." "u1" [] 3 wColl).response = true
       ∧ (ingest wProvider none "   " "Visited temples." "u1" [] 3 wColl).coll = wColl
       ∧ (ingest wProvider none "   " "Visited temples." "u1" [] 3 wColl).calls = []) :=
  ⟨Or.inl (by decide),
   ingest_rejects_blank_without_side_effects wProvider none "   " "Visited temples."
      "u1" [] 3 wColl (Or.inl (by decide))⟩

/-- C5: the caller-supplied search limit is kept within the range 1 to 50
under one consistent policy: an accepted query carries its original limit,
which is within the range, and a limit of 0, a negative limit, or a limit
above 50 is rejected with a validation error (rejection, not clamping, is the
implemented policy). -/
theorem search_limit_kept_in_range (query user_id : String) (limit : Int) :
    (∀ q : SearchQuery, SearchQuery.validate query user_id limit = Except.ok q →
        1 ≤ q.limit ∧ q.limit ≤ 50 ∧ q.limit = limit)
    ∧ ((limit < 1 ∨ 50 < limit) →
        (SearchQuery.validate query user_id limit).isOk = false) := by
  constructor
  · intro q h
    simp only [SearchQuery.validate] at h
    split at h
    · cases h
    · split at h
      · cases h
      · split at h
        · cases h
        · split at h
          · cases h
          · split at h
            · cases h
            · rename_i h1 h2 h3 h4 h5
              cases h
              refine ⟨?_, ?_, rfl⟩
              · show (1 : Int) ≤ limit
                omega
              · show limit ≤ (50 : Int)
                omega
  · intro hout
    simp only [SearchQuery.validate]
    split
    · rfl
    · split
      · rfl
      · split
        · rfl
        · split
          · rfl
          · split
            · rfl
            · rename_i h1 h2 h3 h4 h5
              rcases hout with h | h <;> omega

theorem search_limit_kept_in_range_witness :
    (1 ≤ (10 : Int) ∧ (10 : Int) ≤ 50 ∧ (10 : Int) = 10)
    ∧ (SearchQuery.validate "temples" "u1" 0).isOk = false :=
  ⟨(search_limit_kept_in_range "temples" "u1" 10).1
      { query := "temples", user_id := "u1", limit := 10 } rfl,
   (search_limit_kept_in_range "temples" "u1" 0).2 (Or.inl (by omega))⟩

/-- C6: whenever the query embedding succeeds, the assembled search response
is exactly the store's ranked result list wrapped element by element in order
(nothing is re-sorted, dropped or reordered between the store query and the
response), it contains at most limit results, their scores are non-increasing,
and the reported count equals the number of results. -/
theorem search_preserves_store_order (provider : EmbedFn)
    (sim : List Rat → List Rat → Rat) (q : SearchQuery) (coll : Collection)
    (query_embedding : List Rat)
    (hqe : (generate_query_embedding provider q.query).result
        = Except.ok query_embedding) :
    (search_notes_route provider sim q coll).response = Except.ok
      { results := (MongoDBService.vector_search sim query_embedding q.user_id
          q.limit.toNat coll).map SearchDoc.toResult,
        query := q.query,
        count := ((MongoDBService.vector_search sim query_embedding q.user_id
          q.limit.toNat coll).map SearchDoc.toResult).length }
    ∧ ((MongoDBService.vector_search sim query_embedding q.user_id
          q.limit.toNat coll).map SearchDoc.toResult).length ≤ q.limit.toNat
    ∧ List.Pairwise (fun a b => b.score ≤ a.score)
        ((MongoDBService.vector_search sim query_embedding q.user_id
          q.limit.toNat coll).map SearchDoc.toResult) := by
  refine ⟨?_, ?_, ?_⟩
  · unfold search_notes_route
    cases heq : generate_query_embedding provider q.query with
    | mk res calls =>
        rw [heq] at hqe
        have hres : res = Except.ok query_embedding := hqe
        subst hres
        rfl
  · rw [List.length_map]
    exact vector_search_length_le sim query_embedding q.user_id q.limit.toNat coll
  · rw [List.pairwise_map]
    exact (vector_search_sorted sim query_embedding q.user_id q.limit.toNat coll).imp
      (fun hab => by simpa [SearchDoc.toResult] using hab)

theorem search_preserves_store_order_witness :
    (search_notes_route wProvider wSim wQuery wColl).response = Except.ok
      { results := (MongoDBService.vector_search wSim wEmbedding wQuery.user_id
          wQuery.limit.toNat wColl).map SearchDoc.toResult,
        query := wQuery.query,
        count := ((MongoDBService.vector_search wSim wEmbedding wQuery.user_id
          wQuery.limit.toNat wColl).map SearchDoc.toResult).length }
    ∧ ((MongoDBService.vector_search wSim wEmbedding wQuery.user_id
          wQuery.limit.toNat wColl).map SearchDoc.toResult).length ≤ wQuery.limit.toNat
    ∧ List.Pairwise (fun a b => b.score ≤ a.score)
        ((MongoDBService.vector_search wSim wEmbedding wQuery.user_id
          wQuery.limit.toNat wColl).map SearchDoc.toResult) :=
  search_preserves_store_order wProvider wSim wQuery wColl wEmbedding
    (by simp [generate_query_embedding, wProvider, wEmbedding_length])

theorem updatedDescBool_trans (a b c : NoteDoc)
    (hab : updatedDescBool a b = true) (hbc : updatedDescBool b c = true) :
    updatedDescBool a c = true := by
  simp only [updatedDescBool, decide_eq_true_eq] at hab hbc ⊢
  omega

theorem updatedDescBool_total (a b : NoteDoc) :
    (updatedDescBool a b || updatedDescBool b a) = true := by
  simp only [updatedDescBool, Bool.or_eq_true, decide_eq_true_eq]
  omega

/-- C7: list_notes returns only records of the requesting user, each of which
is the embedding-excluding projection of a stored document (the ListedNote
record type carries no embedding field at all), ordered by updated_at
descending, and at most limit of them. -/
theorem list_notes_scoped_projected_sorted (user_id : String) (limit : Nat)
    (coll : Collection) :
    (∀ n ∈ MongoDBService.list_notes user_id limit coll,
        n.user_id = user_id ∧ n ∈ coll.map NoteDoc.toListed)
    ∧ (MongoDBService.list_notes user_id limit coll).length ≤ limit
    ∧ List.Pairwise (fun a b => b.updated_at ≤ a.updated_at)
        (MongoDBService.list_notes user_id limit coll) := by
  refine ⟨?_, ?_, ?_⟩
  · intro n hn
    simp only [MongoDBService.list_notes] at hn
    rw [List.mem_map] at hn
    obtain ⟨d, hd, hdn⟩ := hn
    have hd1 := List.mem_of_mem_take (List.mem_of_mem_take hd)
    rw [List.mem_mergeSort, List.mem_filter] at hd1
    constructor
    · rw [← hdn]
      have := hd1.2
      simpa [NoteDoc.toListed] using this
    · rw [← hdn]
      exact List.mem_map.mpr ⟨d, hd1.1, rfl⟩
  · simp only [MongoDBService.list_notes]
    simp only [List.length_map, List.length_take]
    omega
  · simp only [MongoDBService.list_notes]
    rw [List.pairwise_map]
    apply List.Pairwise.sublist (List.take_sublist _ _)
    apply List.Pairwise.sublist (List.take_sublist _ _)
    have hs := List.sorted_mergeSort updatedDescBool_trans updatedDescBool_total
      (List.filter (fun d => d.user_id == user_id) coll)
    exact hs.imp (fun hab => by simpa [updatedDescBool, NoteDoc.toListed] using hab)

/-- Evaluation of the listing on the concrete two-user collection. -/
theorem list_notes_wColl_eval :
    MongoDBService.list_notes "u1" 5 wColl = [NoteDoc.toListed wDoc1] := by
  simp [MongoDBService.list_notes, wColl, wDoc1, wDoc2, List.filter,
    List.take_of_length_le,
    show (("u1" : String) == "u1") = true from rfl,
    show (("u2" : String) == "u1") = false from rfl]

theorem list_notes_scoped_projected_sorted_witness :
    ((NoteDoc.toListed wDoc1).user_id = "u1"
      ∧ NoteDoc.toListed wDoc1 ∈ wColl.map NoteDoc.toListed)
    ∧ (MongoDBService.list_notes "u1" 5 wColl).length ≤ 5 :=
  ⟨(list_notes_scoped_projected_sorted "u1" 5 wColl).1 (NoteDoc.toListed wDoc1)
      (by rw [list_notes_wColl_eval]; exact List.mem_singleton.mpr rfl),
   (list_notes_scoped_projected_sorted "u1" 5 wColl).2.1⟩

theorem parse_render_objectId (n : Nat) :
    parseObjectId (renderObjectId n) = some n := by
  unfold parseObjectId renderObjectId
  have hall : ((String.mk (List.replicate n 'i')).data.all (fun c => c == 'i')) = true := by
    show ((List.replicate n 'i').all (fun c => c == 'i')) = true
    rw [List.all_eq_true]
    intro c hc
    simp [(List.mem_replicate.mp hc).2]
  rw [if_pos hall]
  show some (List.replicate n 'i').length = some n
  rw [List.length_replicate]

theorem get_note_append_fresh (coll : Collection) (d : NoteDoc) (n : Nat)
    (hn : d.oid = n) (hfresh : ∀ x ∈ coll, x.oid ≠ n) :
    MongoDBService.get_note none (renderObjectId n) (coll ++ [d]) = some d := by
  unfold MongoDBService.get_note
  rw [parse_render_objectId]
  show List.find? (fun x => x.oid == n) (coll ++ [d]) = some d
  rw [List.find?_append]
  have h1 : List.find? (fun x => x.oid == n) coll = none := by
    rw [List.find?_eq_none]
    intro x hx
    simpa using hfresh x hx
  rw [h1]
  simp [hn]

theorem ingest_of_validate_ok {title content user_id : String}
    {tags : List String} {note : NoteCreate}
    (hv : NoteCreate.validate title content user_id tags = Except.ok note)
    (provider : EmbedFn) (readFail : Option String) (now : Nat)
    (coll : Collection) :
    ingest provider readFail title content user_id tags now coll =
      create_note_route provider readFail note now coll := by
  unfold ingest
  rw [hv]

/-- C9: a note accepted by validation and successfully embedded is stored by
ingest and read back unchanged: the response carries the validated title,
content, tags (same elements, same order) and userId, with both timestamps
equal to the single creation instant, and fetching the stored id again returns
the document with the very embedding that was generated — the read alters
nothing. -/
theorem ingest_then_get_roundtrip (provider : EmbedFn)
    (title content user_id : String) (tags : List String) (now : Nat)
    (coll : Collection) (note : NoteCreate) (emb : List Rat)
    (hv : NoteCreate.validate title content user_id tags = Except.ok note)
    (he : (generate_note_embedding provider note.title note.content note.tags).result
        = Except.ok emb)
    (hfresh : ∀ d ∈ coll, d.oid ≠ freshObjectId coll) :
    (ingest provider none title content user_id tags now coll).response =
      Except.ok { id := renderObjectId (freshObjectId coll), title := note.title,
                  content := note.content, user_id := note.user_id,
                  tags := note.tags, created_at := now, updated_at := now }
    ∧ MongoDBService.get_note none (renderObjectId (freshObjectId coll))
        (ingest provider none title content user_id tags now coll).coll =
        some { oid := freshObjectId coll, title := note.title,
               content := note.content, user_id := note.user_id,
               tags := note.tags, embedding := emb,
               created_at := now, updated_at := now } := by
  have hget := get_note_append_fresh coll
    { oid := freshObjectId coll, title := note.title, content := note.content, user_id := note.user_id, tags := note.tags, embedding := emb, created_at := now, updated_at := now }
    (freshObjectId coll) rfl (fun x hx => hfresh x hx)
  rw [ingest_of_validate_ok hv provider none now coll]
  cases heq : generate_note_embedding provider note.title note.content note.tags with
  | mk res calls =>
      rw [heq] at he
      have hres : res = Except.ok emb := he
      subst hres
      unfold create_note_route
      rw [heq]
      simp only [MongoDBService.create_note, hget]
      exact ⟨rfl, trivial⟩

theorem ingest_then_get_roundtrip_witness :
    (ingest wProvider none "Trip to Kyoto" "Visited temples." "u1" ["travel"] 3
        wColl).response =
      Except.ok { id := renderObjectId (freshObjectId wColl),
                  title := wNote.title, content := wNote.content,
                  user_id := wNote.user_id, tags := wNote.tags,
                  created_at := 3, updated_at := 3 }
    ∧ MongoDBService.get_note none (renderObjectId (freshObjectId wColl))
        (ingest wProvider none "Trip to Kyoto" "Visited temples." "u1" ["travel"] 3
          wColl).coll =
        some { oid := freshObjectId wColl, title := wNote.title,
               content := wNote.content, user_id := wNote.user_id,
               tags := wNote.tags, embedding := wEmbedding,
               created_at := 3, updated_at := 3 } :=
  ingest_then_get_roundtrip wProvider "Trip to Kyoto" "Visited temples." "u1"
    ["travel"] 3 wColl wNote wEmbedding
    rfl
    (by simp [generate_note_embedding, generate_embedding, wProvider, wEmbedding_length])
    (by decide)

/-- C10: get_note is total and never raises: a malformed identifier string
returns none (the ObjectId constructor raises inside the try block and the
handler returns None), a store failure during the read also returns none and
is therefore indistinguishable at the repository boundary from an ordinary
not-found on any collection, and any document it does return was stored in
the collection. -/
theorem get_note_total_never_raises (storeFail : Option String) (s : String)
    (coll : Collection) :
    (parseObjectId s = none → MongoDBService.get_note storeFail s coll = none)
    ∧ (∀ e, MongoDBService.get_note (some e) s coll
        = MongoDBService.get_note none s [])
    ∧ (∀ d : NoteDoc, MongoDBService.get_note storeFail s coll = some d → d ∈ coll) := by
  refine ⟨?_, ?_, ?_⟩
  · intro hp
    unfold MongoDBService.get_note
    rw [hp]
  · intro e
    unfold MongoDBService.get_note
    cases parseObjectId s with
    | none => rfl
    | some oid => simp
  · intro d hd
    unfold MongoDBService.get_note at hd
    cases hp : parseObjectId s with
    | none => rw [hp] at hd; cases hd
    | some oid =>
        rw [hp] at hd
        cases storeFail with
        | some e => cases hd
        | none => exact List.mem_of_find?_eq_some hd

theorem get_note_total_never_raises_witness :
    (MongoDBService.get_note none "not-an-id" wColl = none)
    ∧ (MongoDBService.get_note (some "store down") (renderObjectId 0) wColl
        = MongoDBService.get_note none (renderObjectId 0) [])
    ∧ (wDoc1 ∈ wColl) :=
  ⟨(get_note_total_never_raises none "not-an-id" wColl).1 rfl,
   (get_note_total_never_raises (some "store down") (renderObjectId 0) wColl).2.1
      "store down",
   (get_note_total_never_raises none (renderObjectId 0) wColl).2.2 wDoc1 rfl⟩

end NotesRag
